import Mathlib

/-!
Verification of the content-addressable build cache and manifest relocation
subsystem of cnabtools, against a shallow embedding of
`cnabtools/docker.py` and `cnabtools/bundler.py`.

Conventions of the embedding:
* Python `str` values are Lean `String`s (sequences of Unicode code points);
  where index arithmetic matters the embedding works on `List Char`.
* File contents are byte strings, given as the UTF-8 bytes of a `String`.
* `hashlib.sha256` is embedded as a full executable SHA-256 over `List Nat`
  bytes, with 32-bit words as `Nat` reduced `% 2^32`.
* `json.dumps(o, sort_keys=True)` (used by `_digest_json` and
  `canonical_json`, both with CPython default separators) is embedded by
  `jsonDumps` below.
* The external builder (the docker/buildkit daemon) is not part of the
  repository; its store and its three primitives (build, inspect, tag) are
  modelled from the spec, see `Store` and `DockerEnv`.
-/

set_option maxRecDepth 40000

/-! ## SHA-256 (embedding of `hashlib.sha256(...).hexdigest()`) -/

/-- Modulus for 32-bit words. -/
def M32 : Nat := 4294967296

/-- Right rotation of a 32-bit word. -/
def rotr32 (x n : Nat) : Nat := ((x >>> n) ||| (x <<< (32 - n))) % M32

/-- The 64 SHA-256 round constants. -/
def sha256K : List Nat :=
  [1116352408, 1899447441, 3049323471, 3921009573, 961987163, 1508970993,
   2453635748, 2870763221, 3624381080, 310598401, 607225278, 1426881987,
   1925078388, 2162078206, 2614888103, 3248222580, 3835390401, 4022224774,
   264347078, 604807628, 770255983, 1249150122, 1555081692, 1996064986,
   2554220882, 2821834349, 2952996808, 3210313671, 3336571891, 3584528711,
   113926993, 338241895, 666307205, 773529912, 1294757372, 1396182291,
   1695183700, 1986661051, 2177026350, 2456956037, 2730485921, 2820302411,
   3259730800, 3345764771, 3516065817, 3600352804, 4094571909, 275423344,
   430227734, 506948616, 659060556, 883997877, 958139571, 1322822218,
   1537002063, 1747873779, 1955562222, 2024104815, 2227730452, 2361852424,
   2428436474, 2756734187, 3204031479, 3329325298]

/-- The SHA-256 initial hash state. -/
def sha256H0 : List Nat :=
  [1779033703, 3144134277, 1013904242, 2773480762,
   1359893119, 2600822924, 528734635, 1541459225]

/-- Splits a list in chunks of `n` elements (fuel-driven helper). -/
def chunkAux (n : Nat) : Nat → List Nat → List (List Nat)
  | 0, _ => []
  | _, [] => []
  | fuel+1, l => l.take n :: chunkAux n fuel (l.drop n)

/-- Splits a list in chunks of `n` elements. -/
def chunkList (n : Nat) (l : List Nat) : List (List Nat) := chunkAux n l.length l

/-- Big-endian 32-bit word from four bytes. -/
def beWord : List Nat → Nat
  | [b0, b1, b2, b3] => b0 * 16777216 + b1 * 65536 + b2 * 256 + b3
  | _ => 0

/-- Big-endian 8-byte encoding of a length in bits. -/
def beBytes8 (n : Nat) : List Nat :=
  [n / 72057594037927936 % 256, n / 281474976710656 % 256, n / 1099511627776 % 256,
   n / 4294967296 % 256, n / 16777216 % 256, n / 65536 % 256, n / 256 % 256, n % 256]

/-- SHA-256 message padding: append `0x80`, zero-pad to 56 mod 64, then the
bit length as 8 big-endian bytes. -/
def sha256Pad (msg : List Nat) : List Nat :=
  msg ++ [128] ++ List.replicate ((119 - msg.length % 64) % 64) 0 ++ beBytes8 (msg.length * 8)

/-- SHA-256 small sigma 0. -/
def ssig0 (x : Nat) : Nat := (rotr32 x 7) ^^^ (rotr32 x 18) ^^^ (x >>> 3)

/-- SHA-256 small sigma 1. -/
def ssig1 (x : Nat) : Nat := (rotr32 x 17) ^^^ (rotr32 x 19) ^^^ (x >>> 10)

/-- Extends the 16-word message schedule to 64 words. -/
def extendW : Nat → List Nat → List Nat
  | 0, w => w
  | n+1, w =>
    let i := w.length
    extendW n
      (w ++ [(ssig1 (w.getD (i-2) 0) + w.getD (i-7) 0 + ssig0 (w.getD (i-15) 0) + w.getD (i-16) 0) % M32])

/-- One SHA-256 compression round on the 8-word working state. -/
def sha256Step (st : List Nat) (kw : Nat × Nat) : List Nat :=
  match st with
  | [a, b, c, d, e, f, g, h] =>
    let s1 := (rotr32 e 6) ^^^ (rotr32 e 11) ^^^ (rotr32 e 25)
    let ch := (e &&& f) ^^^ ((e ^^^ 4294967295) &&& g)
    let t1 := (h + s1 + ch + kw.1 + kw.2) % M32
    let s0 := (rotr32 a 2) ^^^ (rotr32 a 13) ^^^ (rotr32 a 22)
    let mj := (a &&& b) ^^^ (a &&& c) ^^^ (b &&& c)
    let t2 := (s0 + mj) % M32
    [(t1 + t2) % M32, a, b, c, (d + t1) % M32, e, f, g]
  | _ => st

/-- Processes one 64-byte block. -/
def sha256Block (h : List Nat) (block : List Nat) : List Nat :=
  let w := extendW 48 ((chunkList 4 block).map beWord)
  let st := (sha256K.zip w).foldl (fun s kw => sha256Step s (kw.1, kw.2)) h
  (h.zip st).map (fun p => (p.1 + p.2) % M32)

/-- SHA-256 digest (32 bytes) of a byte string. -/
def sha256Bytes (msg : List Nat) : List Nat :=
  let hFinal := (chunkList 64 (sha256Pad msg)).foldl sha256Block sha256H0
  (hFinal.map (fun w => [w / 16777216 % 256, w / 65536 % 256, w / 256 % 256, w % 256])).flatten

/-- Lower-case hexadecimal digit. -/
def hexChar (n : Nat) : Char := if n < 10 then Char.ofNat (48 + n) else Char.ofNat (87 + n)

/-- Lower-case hex digest string of the SHA-256 of a byte string
(`hashlib.sha256(bytes).hexdigest()`). -/
def sha256HexOfBytes (msg : List Nat) : String :=
  String.mk (((sha256Bytes msg).map (fun b => [hexChar (b / 16), hexChar (b % 16)])).flatten)

/-- UTF-8 encoding of one code point (Python `str.encode('utf8')`, per char). -/
def utf8Char (c : Char) : List Nat :=
  let n := c.toNat
  if n < 128 then [n]
  else if n < 2048 then [192 ||| (n >>> 6), 128 ||| (n &&& 63)]
  else if n < 65536 then [224 ||| (n >>> 12), 128 ||| ((n >>> 6) &&& 63), 128 ||| (n &&& 63)]
  else [240 ||| (n >>> 18), 128 ||| ((n >>> 12) &&& 63), 128 ||| ((n >>> 6) &&& 63), 128 ||| (n &&& 63)]

/-- UTF-8 bytes of a string. -/
def utf8Bytes (s : String) : List Nat := (s.data.map utf8Char).flatten

/-! ## JSON values and `json.dumps(o, sort_keys=True)`

`Json` models the Python values that appear in manifests (`dict`s keep
insertion order, hence association lists; numbers that occur are ints).
`jsonDumps` embeds `json.dumps(o, sort_keys=True)` with CPython's default
separators `", "` and `": "` and default `ensure_ascii=True` escaping. -/

/-- JSON value, as deserialized from / serialized to a Python structure. An
object is the association list of a Python `dict` in insertion order. -/
inductive Json where
  | null
  | bool (b : Bool)
  | num (n : Int)
  | str (s : String)
  | arr (xs : List Json)
  | obj (kvs : List (String × Json))

/-- Four lower-case hex digits. -/
def hex4 (n : Nat) : List Char :=
  [hexChar (n / 4096 % 16), hexChar (n / 256 % 16), hexChar (n / 16 % 16), hexChar (n % 16)]

/-- CPython `json` `ensure_ascii` escaping of one character: backslash, quote
and the short control escapes, `\uXXXX` for other controls and for all
non-ASCII code points (surrogate pairs above `0xFFFF`). -/
def encChar (c : Char) : List Char :=
  let n := c.toNat
  if c = '\\' then ['\\', '\\']
  else if c = '"' then ['\\', '"']
  else if n = 8 then ['\\', 'b']
  else if n = 9 then ['\\', 't']
  else if n = 10 then ['\\', 'n']
  else if n = 12 then ['\\', 'f']
  else if n = 13 then ['\\', 'r']
  else if n < 32 ∨ n > 126 then
    if n < 65536 then '\\' :: 'u' :: hex4 n
    else ('\\' :: 'u' :: hex4 (55296 + (n - 65536) / 1024)) ++ ('\\' :: 'u' :: hex4 (56320 + (n - 65536) % 1024))
  else [c]

/-- JSON string literal for `s`, quotes included. -/
def encString (s : String) : String := String.mk ('"' :: (s.data.map encChar).flatten ++ ['"'])

/-- Inserts a pair into a list sorted by key (ascending, stable). Keys are
compared as code point sequences, Python's `str` comparison. -/
def insertByKey {V : Type} (p : String × V) : List (String × V) → List (String × V)
  | [] => [p]
  | q :: qs => if p.1.data ≤ q.1.data then p :: q :: qs else q :: insertByKey p qs

/-- Stable insertion sort by key; embeds CPython's `sorted(dct.items())` for
the `dict`s at hand (unique keys, so only keys are ever compared). -/
def sortPairsByKey {V : Type} : List (String × V) → List (String × V)
  | [] => []
  | p :: ps => insertByKey p (sortPairsByKey ps)

/-- Renders one `key: value` item (already-serialized value). -/
def renderKV (kv : String × String) : String := encString kv.1 ++ ": " ++ kv.2

mutual

/-- Embedding of `json.dumps(o, sort_keys=True)` (CPython defaults:
separators `", "` and `": "`, `ensure_ascii=True`). -/
def jsonDumps : Json → String
  | .null => "null"
  | .bool b => if b then "true" else "false"
  | .num n => toString n
  | .str s => encString s
  | .arr xs => "[" ++ String.intercalate ", " (jsonDumpsList xs) ++ "]"
  | .obj kvs => "\x7b" ++ String.intercalate ", "
      ((sortPairsByKey (jsonDumpsKVs kvs)).map renderKV) ++ "\x7d"

/-- Serializes the items of an array. -/
def jsonDumpsList : List Json → List String
  | [] => []
  | x :: xs => jsonDumps x :: jsonDumpsList xs

/-- Serializes the values of an object, keeping keys. -/
def jsonDumpsKVs : List (String × Json) → List (String × String)
  | [] => []
  | (k, v) :: xs => (k, jsonDumps v) :: jsonDumpsKVs xs

end

/-- The serialization of an object's items is the map of serialization over
the values. -/
theorem jsonDumpsKVs_eq_map (l : List (String × Json)) :
    jsonDumpsKVs l = l.map (fun kv => (kv.1, jsonDumps kv.2)) := by
  induction l with
  | nil => simp [jsonDumpsKVs]
  | cons p ps ih =>
    obtain ⟨k, v⟩ := p
    simp [jsonDumpsKVs, ih]

/-! ### The key-sort is permutation-invariant on duplicate-free keys -/

/-- Comparison by key (as code point sequences). -/
abbrev keyLE {V : Type} (a b : String × V) : Prop := a.1.data ≤ b.1.data

theorem insertByKey_perm {V : Type} (p : String × V) (l : List (String × V)) :
    List.Perm (insertByKey p l) (p :: l) := by
  induction l with
  | nil => simp [insertByKey]
  | cons q qs ih =>
    by_cases h : p.1.data ≤ q.1.data
    · simp [insertByKey, h]
    · simp only [insertByKey, if_neg h]
      exact (ih.cons q).trans (List.Perm.swap p q qs)

theorem sortPairsByKey_perm {V : Type} (l : List (String × V)) :
    List.Perm (sortPairsByKey l) l := by
  induction l with
  | nil => simp [sortPairsByKey]
  | cons p ps ih =>
    exact (insertByKey_perm p (sortPairsByKey ps)).trans (ih.cons p)

theorem insertByKey_sorted {V : Type} (p : String × V) (l : List (String × V))
    (h : l.Pairwise keyLE) : (insertByKey p l).Pairwise keyLE := by
  induction l with
  | nil => simp [insertByKey, List.pairwise_cons]
  | cons q qs ih =>
    rcases List.pairwise_cons.mp h with ⟨hq, hqs⟩
    by_cases hpq : p.1.data ≤ q.1.data
    · simp only [insertByKey, if_pos hpq]
      refine List.pairwise_cons.mpr ⟨?_, h⟩
      intro b hb
      rcases List.mem_cons.mp hb with rfl | hb
      · exact hpq
      · exact le_trans hpq (hq b hb)
    · simp only [insertByKey, if_neg hpq]
      refine List.pairwise_cons.mpr ⟨?_, ih hqs⟩
      intro b hb
      rcases List.mem_cons.mp ((insertByKey_perm p qs).mem_iff.mp hb) with rfl | hb
      · exact le_of_not_le hpq
      · exact hq b hb

theorem sortPairsByKey_sorted {V : Type} (l : List (String × V)) :
    (sortPairsByKey l).Pairwise keyLE := by
  induction l with
  | nil => simp [sortPairsByKey]
  | cons p ps ih => exact insertByKey_sorted p _ ih

/-- Two sorted association lists that are permutations of each other and have
duplicate-free keys are equal. -/
theorem sorted_perm_nodupkeys_eq {V : Type} (l1 : List (String × V)) :
    ∀ l2 : List (String × V), List.Perm l1 l2 → l1.Pairwise keyLE → l2.Pairwise keyLE →
      (l1.map Prod.fst).Nodup → l1 = l2 := by
  induction l1 with
  | nil =>
    intro l2 hp _ _ _
    exact (List.perm_nil.mp hp.symm).symm
  | cons a t1 ih =>
    intro l2 hp h1 h2 hn
    cases l2 with
    | nil => exact absurd (List.perm_nil.mp hp) (by simp)
    | cons b t2 =>
      rcases List.pairwise_cons.mp h1 with ⟨ha, ht1⟩
      rcases List.pairwise_cons.mp h2 with ⟨hb, ht2⟩
      rw [List.map_cons] at hn
      rcases List.nodup_cons.mp hn with ⟨ha1, hn1⟩
      have hab : a = b := by
        rcases List.mem_cons.mp (hp.mem_iff.mp (List.mem_cons_self a t1)) with h | h
        · exact h
        · have hba : b.1.data ≤ a.1.data := hb a h
          rcases List.mem_cons.mp (hp.symm.mem_iff.mp (List.mem_cons_self b t2)) with h2m | h2m
          · exact h2m.symm
          · have hab1 : a.1.data ≤ b.1.data := ha b h2m
            have heq : a.1 = b.1 := String.ext (le_antisymm hab1 hba)
            exact absurd (heq ▸ List.mem_map_of_mem Prod.fst h2m) ha1
      subst hab
      have htp : List.Perm t1 t2 := hp.cons_inv
      rw [ih t2 htp ht1 ht2 hn1]

/-- Sorting by key is invariant under permutation when keys are
duplicate-free. -/
theorem sortPairsByKey_eq_of_perm {V : Type} (l1 l2 : List (String × V))
    (hp : List.Perm l1 l2) (hn : (l1.map Prod.fst).Nodup) :
    sortPairsByKey l1 = sortPairsByKey l2 :=
  sorted_perm_nodupkeys_eq _ _
    ((sortPairsByKey_perm l1).trans (hp.trans (sortPairsByKey_perm l2).symm))
    (sortPairsByKey_sorted l1) (sortPairsByKey_sorted l2)
    (((sortPairsByKey_perm l1).map Prod.fst).nodup_iff.mpr hn)

/-! ## docker.py -/

/-- First-match association lookup: Python `dict` access / `dict.get` on the
insertion-ordered item list (keys are unique in any real `dict`). -/
def alookup {V : Type} : List (String × V) → String → Option V
  | [], _ => none
  | kv :: rest, k => if kv.1 = k then some kv.2 else alookup rest k

/-- Python `\x7b**d, k: v\x7d`: replaces the value in place if the key
exists (keeping its position), else appends the new key at the end. -/
def aset {V : Type} (l : List (String × V)) (k : String) (v : V) : List (String × V) :=
  if (alookup l k).isSome then l.map (fun kv => if kv.1 = k then (k, v) else kv)
  else l ++ [(k, v)]

/-- Python whitespace (`str.strip` default set, ASCII part). -/
def isPySpace (c : Char) : Bool :=
  c == ' ' || c == '\t' || c == '\n' || c == '\r' || c == '\x0b' || c == '\x0c'

/-- Python `str.strip()`. -/
def pyStrip (s : String) : String :=
  String.mk (((s.data.dropWhile isPySpace).reverse.dropWhile isPySpace).reverse)

/-- Position of the first occurrence of a character (Python `str.index`,
with `none` where Python raises `ValueError`). -/
def strIndex (c : Char) : List Char → Option Nat
  | [] => none
  | x :: xs => if x = c then some 0 else (strIndex c xs).map (fun i => i + 1)

/-- Embedding of `content_addressable_imgref` (docker.py line 19) on code
point lists:
`image_repository + ':' + image_id[image_id.index(':')+1:][:40]`.
`none` models the `ValueError` raised by `index` when the identity contains
no colon. -/
def content_addressable_imgref (image_repository image_id_arg : List Char) : Option (List Char) :=
  match strIndex ':' image_id_arg with
  | none => none
  | some i => some (image_repository ++ ':' :: (image_id_arg.drop (i + 1)).take 40)

/-- String-level wrapper of `content_addressable_imgref`. -/
def contentAddressableImgrefS (image_repository image_id_arg : String) : Option String :=
  (content_addressable_imgref image_repository.data image_id_arg.data).map (fun l => String.mk l)

/-- Embedding of `_imgref_for_invocation_digest` (docker.py line 32). -/
def _imgref_for_invocation_digest (build_context_digest : String) : String :=
  "build-context:" ++ build_context_digest

/-- Embedding of `_digest_file` (docker.py line 206): the SHA-256 hex digest
of the file's bytes (file contents are modelled as the UTF-8 bytes of a
string; the source's fixed-size buffered reads feed the same byte stream to
the hash). -/
def _digest_file (content : String) : String := sha256HexOfBytes (utf8Bytes content)

/-- Embedding of `_digest_string` (docker.py line 229). -/
def _digest_string (s : String) : String := sha256HexOfBytes (utf8Bytes s)

/-- Embedding of `_digest_json` (docker.py line 244):
`_digest_string(json.dumps(o, sort_keys=True))`. -/
def _digest_json (o : Json) : String := _digest_string (jsonDumps o)

/-- The `digests` mapping built by the `os.walk` loop of
`digest_build_invocation`: context-relative path to per-file digest, in
enumeration order. -/
def digestsKvs (files : List (String × String)) : List (String × Json) :=
  files.map (fun pc => (pc.1, Json.str (_digest_file pc.2)))

/-- JSON image of the `args` value (`None` or a list of strings). -/
def argsJson : Option (List String) → Json
  | none => Json.null
  | some l => Json.arr (l.map Json.str)

/-- Embedding of `Docker.digest_build_invocation` (docker.py line 154).
`files` is the `os.walk` enumeration of the build context as pairs of
context-relative path and file content. -/
def digest_build_invocation (files : List (String × String))
    (build_invocation_args : Option (List String)) : String :=
  _digest_json (Json.obj [("digests", Json.obj (digestsKvs files)),
                          ("args", argsJson build_invocation_args)])

/-- Python exceptions that can escape the embedded functions. -/
inductive PyErr where
  | ioError
  | buildError
  | tagError
  | valueError
  | keyError
  | typeError
  | attributeError
  | unsupportedBuilder
  deriving DecidableEq

/-- Modelled from the spec: the builder's local image store (§4.2, §6) is
missing from src/ (it lives in the external docker/buildkit daemon). An
association list from image reference to the identity tagged with it;
lookup is first-match and tagging prepends, giving overwrite semantics.
Identities held by the daemon are its nonempty `sha256:...` image IDs, so a
successful `inspect` is a cache hit. -/
abbrev Store : Type := List (String × String)

/-- Modelled from the spec: `inspect(reference) -> identity | not-found`
(§6), the query behind `Docker.image_id`. -/
def storeLookup (store : Store) (imgref : String) : Option String := alookup store imgref

/-- Modelled from the spec: `tag(identity, reference) -> success | failure`
(§6), the store effect of a successful `docker tag`. -/
def storeTag (store : Store) (image_id_arg imgref : String) : Store :=
  (imgref, image_id_arg) :: store

/-- Modelled from the spec: outcomes of the external builder primitives (§6)
during one run. `buildResult ctx args` is the identity `docker build` writes
to the `--iidfile` (or a failure, i.e. a non-zero exit); `tagFails id ref`
tells whether the `docker tag id ref` invocation exits non-zero. -/
structure DockerEnv where
  buildResult : List (String × String) → List String → Except Unit String
  tagFails : String → String → Bool

/-- Embedding of `Docker.image_id` (docker.py line 184): `docker inspect`
on the builder store, `none` when the reference is not found. -/
def image_id (store : Store) (imgref : String) : Option String := storeLookup store imgref

/-- Embedding of `Docker.tag_content_addressable` (docker.py line 80):
computes the content-addressable reference, runs `docker tag` WITHOUT
checking its exit status (no `check=True` on line 92), and returns the
reference. The store records the tag only when the primitive succeeds; the
returned value never depends on that outcome. `.error .valueError` is the
`ValueError` escaping from `content_addressable_imgref`. -/
def tag_content_addressable (env : DockerEnv) (store : Store)
    (image_repository image_id_arg : String) : Except PyErr String × Store :=
  match contentAddressableImgrefS image_repository image_id_arg with
  | none => (.error .valueError, store)
  | some imgref =>
    (.ok imgref,
     if env.tagFails image_id_arg imgref then store else storeTag store image_id_arg imgref)

/-- Normalization `if not args: args = []` at the top of
`build_with_client_cache` (catches both `None` and `[]`). -/
def argsNorm : Option (List String) → List String
  | none => []
  | some l => l

/-- Observable outcome of one `build_with_client_cache` call: the returned
identity or the escaping exception, the builder store afterwards, how many
times the external `docker build` primitive ran, whether a scratch
directory was created for the identity file and whether it was removed, and
the identity written to the caller-supplied iidfile (if any). -/
structure BwccResult where
  result : Except PyErr String
  store : Store
  builds : Nat
  tmpdirCreated : Bool
  tmpdirRemoved : Bool
  iidfileOut : Option String

/-- Embedding of `Docker.build_with_client_cache` (docker.py line 100).
`ctx` is the walk of the build context; `.error .ioError` there models an
unreadable file raising `IOError` inside `digest_build_invocation`, before
anything else happens. On a hit the image identity comes from the store and
no build runs; on a miss `docker build` runs (`check=True`, so a non-zero
exit raises), the identity file is read and stripped, and `docker tag`
(also `check=True`) records the invocation-digest reference. The
`try/finally` removes the scratch directory on every path. -/
def build_with_client_cache (env : DockerEnv) (store : Store)
    (ctx : Except PyErr (List (String × String)))
    (iidfile : Option String) (args : Option (List String)) : BwccResult :=
  match ctx with
  | .error e => ⟨.error e, store, 0, false, false, none⟩
  | .ok files =>
    match storeLookup store
        (_imgref_for_invocation_digest (digest_build_invocation files (some (argsNorm args)))) with
    | some imageId => ⟨.ok imageId, store, 0, false, false, iidfile.map (fun _ => imageId)⟩
    | none =>
      match env.buildResult files (argsNorm args) with
      | .error _ => ⟨.error .buildError, store, 1, iidfile.isNone, iidfile.isNone, none⟩
      | .ok iidRaw =>
        if env.tagFails (pyStrip iidRaw)
            (_imgref_for_invocation_digest (digest_build_invocation files (some (argsNorm args))))
        then ⟨.error .tagError, store, 1, iidfile.isNone, iidfile.isNone,
              iidfile.map (fun _ => pyStrip iidRaw)⟩
        else ⟨.ok (pyStrip iidRaw),
              storeTag store (pyStrip iidRaw)
                (_imgref_for_invocation_digest (digest_build_invocation files (some (argsNorm args)))),
              1, iidfile.isNone, iidfile.isNone, iidfile.map (fun _ => pyStrip iidRaw)⟩

/-- Embedding of `Docker.build_content_addressable` (docker.py line 54):
`build_with_client_cache` (with default iidfile and args) followed by
`tag_content_addressable`; returns the pair (reference, identity). -/
def build_content_addressable (env : DockerEnv) (store : Store)
    (ctx : Except PyErr (List (String × String))) (image_repository : String) :
    Except PyErr (String × String) × Store :=
  let r := build_with_client_cache env store ctx none none
  match r.result with
  | .error e => (.error e, r.store)
  | .ok imageId =>
    match tag_content_addressable env r.store image_repository imageId with
    | (.error e, s) => (.error e, s)
    | (.ok imgref, s) => (.ok (imgref, imageId), s)

/-! ## bundler.py

`read_manifest`/`write_manifest` move the manifest between the
`duffle.json` file and memory without transforming it; the embedding passes
the deserialized manifest in and returns the transformed manifest (and, for
`build_cnab_app`, the bytes written to the output file). -/

/-- Object field access returning `none` for a missing key or a non-object. -/
def jGet (j : Json) (k : String) : Option Json :=
  match j with
  | .obj kvs => alookup kvs k
  | _ => none

/-- Embedding of the relocation of one touched entry inside the loop of
`relocate_images_to_content_addressable` (bundler.py lines 76-82):
`docker.tag_content_addressable(image['image'], image_id)` followed by
`\x7b**image, "image": next_image, "contentDigest": image_id\x7d`.
`.error .keyError` is `image['image']` missing, `.error .typeError` a
non-object entry or a non-string `image` value (string concatenation in
`content_addressable_imgref` would raise `TypeError`). -/
def relocateEntryS (env : DockerEnv) (store : Store) (entry : Json) (imageIdArg : String) :
    Except PyErr Json × Store :=
  match entry with
  | .obj entryKvs =>
    match alookup entryKvs "image" with
    | some (Json.str ref) =>
      match tag_content_addressable env store ref imageIdArg with
      | (.error e, s) => (.error e, s)
      | (.ok nextRef, s) =>
        (.ok (Json.obj (aset (aset entryKvs "image" (Json.str nextRef))
                             "contentDigest" (Json.str imageIdArg))), s)
    | some _ => (.error .typeError, store)
    | none => (.error .keyError, store)
  | _ => (.error .typeError, store)

/-- The `for image_name in duffle_manifest['images']` loop of
`relocate_images_to_content_addressable` (bundler.py lines 69-82), in
iteration (= insertion) order. An entry whose name is missing from
`image_ids`, or mapped to a falsy identity (`if not image_id`, i.e. the
empty string), passes through unchanged. -/
def relocateImagesLoop (env : DockerEnv) (image_ids : List (String × String)) :
    Store → List (String × Json) → Except PyErr (List (String × Json)) × Store
  | store, [] => (.ok [], store)
  | store, (name, entry) :: rest =>
    match
      (match alookup image_ids name with
       | none => ((.ok entry : Except PyErr Json), store)
       | some id => if id = "" then (.ok entry, store) else relocateEntryS env store entry id) with
    | (.error e, s) => (.error e, s)
    | (.ok nextEntry, s) =>
      match relocateImagesLoop env image_ids s rest with
      | (.error e, s2) => (.error e, s2)
      | (.ok rest2, s2) => (.ok ((name, nextEntry) :: rest2), s2)

/-- Embedding of `DuffleContext.relocate_images_to_content_addressable`
(bundler.py line 50). The final manifest is
`\x7b**duffle_manifest, 'images': next_images\x7d`. A non-object manifest or
a missing `images` key raises (`TypeError`/`KeyError`). Iterating a
non-`dict` `images` value is approximated by `TypeError` (Python raises at
varying points while indexing such values), except the empty-list corner,
where Python's empty loop turns `[]` into `\x7b\x7d`, which is embedded
exactly. -/
def relocate_images_to_content_addressable (env : DockerEnv) (store : Store)
    (manifest : Json) (image_ids : List (String × String)) : Except PyErr Json × Store :=
  match manifest with
  | .obj kvs =>
    match alookup kvs "images" with
    | some (Json.obj images) =>
      match relocateImagesLoop env image_ids store images with
      | (.error e, s) => (.error e, s)
      | (.ok nextImages, s) => (.ok (Json.obj (aset kvs "images" (Json.obj nextImages))), s)
    | some (Json.arr []) => (.ok (Json.obj (aset kvs "images" (Json.obj []))), store)
    | some _ => (.error .typeError, store)
    | none => (.error .keyError, store)
  | _ => (.error .typeError, store)

/-- Embedding of `canonical_json` (bundler.py line 175):
`json.dumps(o, sort_keys=True)` with CPython's default separators. -/
def canonical_json (o : Json) : String := jsonDumps o

/-- Python `str()` coercion as used by the f-string
`f"\x7bapp_name\x7d-\x7bmanifest_name\x7d"`: identity on strings, `str()`
of ints/bools/None; containers are approximated by their JSON dump (no
theorem depends on a non-string application name). -/
def pyFStr : Json → String
  | .str s => s
  | .num n => toString n
  | .bool true => "True"
  | .bool false => "False"
  | .null => "None"
  | j => jsonDumps j

/-- The derived target image name of `_build_invocation_image` (bundler.py
lines 151-155): `f"\x7bapp_name\x7d-\x7bmanifest_name\x7d"`, prefixed with
`registry + '/'` when `build_spec.get('configuration', \x7b\x7d).get('registry')`
is truthy. A non-dict `configuration` value raises `AttributeError` at
`.get`; a truthy non-string `registry` raises `TypeError` at the string
concatenation. -/
def imageFullName (specKvs : List (String × Json)) (appName manifestName : String) :
    Except PyErr String :=
  let base := appName ++ "-" ++ manifestName
  match (alookup specKvs "configuration").getD (Json.obj []) with
  | .obj confKvs =>
    match alookup confKvs "registry" with
    | none => .ok base
    | some (Json.str r) => if r = "" then .ok base else .ok (r ++ "/" ++ base)
    | some Json.null => .ok base
    | some (Json.bool b) => if b then .error .typeError else .ok base
    | some (Json.num n) => if n = 0 then .ok base else .error .typeError
    | some (Json.arr l) => if l.isEmpty then .ok base else .error .typeError
    | some (Json.obj l) => if l.isEmpty then .ok base else .error .typeError
  | _ => .error .attributeError

/-- Embedding of `DuffleContext._build_invocation_image` (bundler.py line
133): only `builder == 'docker'` is supported (`build_spec.get("builder",
"docker")`); any other value raises (the `UnsupportedBuilderError` of the
spec). On the docker path the CNAB spec for the image is
`\x7b'image': imgref, 'contentDigest': image_id, 'imageType': 'docker'\x7d`. -/
def _build_invocation_image (env : DockerEnv) (store : Store)
    (cnabDir : Except PyErr (List (String × String)))
    (appName manifestName : String) (buildSpec : Json) : Except PyErr Json × Store :=
  match buildSpec with
  | .obj specKvs =>
    match (alookup specKvs "builder").getD (Json.str "docker") with
    | Json.str b =>
      if b = "docker" then
        match imageFullName specKvs appName manifestName with
        | .error e => (.error e, store)
        | .ok fullName =>
          match build_content_addressable env store cnabDir fullName with
          | (.error e, s) => (.error e, s)
          | (.ok (imgref, imageId), s) =>
            (.ok (Json.obj [("image", Json.str imgref), ("contentDigest", Json.str imageId),
                            ("imageType", Json.str "docker")]), s)
      else (.error .unsupportedBuilder, store)
    | _ => (.error .unsupportedBuilder, store)
  | _ => (.error .attributeError, store)

/-- The `for name in duffle_manifest['invocationImages']` loop of
`build_cnab_app` (bundler.py lines 115-120), building the list
`cnab_invocation_images` in iteration order; the first exception aborts the
loop. -/
def buildInvocationImagesLoop (env : DockerEnv)
    (cnabDir : Except PyErr (List (String × String))) (appName : String) :
    Store → List (String × Json) → Except PyErr (List Json) × Store
  | store, [] => (.ok [], store)
  | store, (name, spec) :: rest =>
    match _build_invocation_image env store cnabDir appName name spec with
    | (.error e, s) => (.error e, s)
    | (.ok img, s) =>
      match buildInvocationImagesLoop env cnabDir appName s rest with
      | (.error e, s2) => (.error e, s2)
      | (.ok imgs, s2) => (.ok (img :: imgs), s2)

/-- Everything `build_cnab_app` (bundler.py line 91) does before the
output-file write: reads `name` and `invocationImages` from the manifest
(`KeyError` when missing), builds every invocation image, and assembles
`\x7b**duffle_manifest, 'invocationImages': cnab_invocation_images\x7d`.
Iterating a non-`dict` `invocationImages` value is approximated by
`TypeError` (the empty-list corner iterates zero times and is embedded
exactly). -/
def buildCnabManifestCore (env : DockerEnv) (store : Store)
    (cnabDir : Except PyErr (List (String × String))) (manifest : Json) :
    Except PyErr Json × Store :=
  match manifest with
  | .obj kvs =>
    match alookup kvs "name" with
    | none => (.error .keyError, store)
    | some nameJson =>
      match alookup kvs "invocationImages" with
      | some (Json.obj invKvs) =>
        match buildInvocationImagesLoop env cnabDir (pyFStr nameJson) store invKvs with
        | (.error e, s) => (.error e, s)
        | (.ok imgs, s) => (.ok (Json.obj (aset kvs "invocationImages" (Json.arr imgs))), s)
      | some (Json.arr []) =>
        (.ok (Json.obj (aset kvs "invocationImages" (Json.arr []))), store)
      | some _ => (.error .typeError, store)
      | none => (.error .keyError, store)
  | _ => (.error .typeError, store)

/-- Observable outcome of `build_cnab_app`: the returned CNAB manifest or
the escaping exception, the builder store, and the canonical JSON written
to the output file (`none` when nothing was written). -/
structure AppResult where
  result : Except PyErr Json
  store : Store
  written : Option String

/-- Embedding of `DuffleContext.build_cnab_app` (bundler.py line 91): the
manifest transformation followed by the single write of
`canonical_json(cnab_manifest)` to the output file when one was given
(`outputFile`), in source order - the write happens only after every
invocation image has been processed. -/
def build_cnab_app (env : DockerEnv) (store : Store)
    (cnabDir : Except PyErr (List (String × String)))
    (manifest : Json) (outputFile : Bool) : AppResult :=
  match buildCnabManifestCore env store cnabDir manifest with
  | (.error e, s) => ⟨.error e, s, none⟩
  | (.ok cm, s) => ⟨.ok cm, s, if outputFile then some (canonical_json cm) else none⟩

/-! ## Theorems -/

/-! ### Content addressing (C8, C9, C10, C1) -/

theorem strIndex_eq_none_iff (c : Char) (l : List Char) : strIndex c l = none ↔ c ∉ l := by
  induction l with
  | nil => simp [strIndex]
  | cons x xs ih =>
    simp only [strIndex, List.mem_cons]
    by_cases hx : x = c
    · simp [hx]
    · rw [if_neg hx]
      cases h : strIndex c xs with
      | none =>
        have hcx : ¬c = x := fun hc => hx hc.symm
        simp [ih.mp h, hcx]
      | some i =>
        have hmem : c ∈ xs := by
          by_contra hm
          rw [ih.mpr hm] at h
          simp at h
        simp [hmem]

theorem strIndex_append_cons (pre post : List Char) (hpre : ':' ∉ pre) :
    strIndex ':' (pre ++ ':' :: post) = some pre.length := by
  induction pre with
  | nil => simp [strIndex]
  | cons c cs ih =>
    have hc : c ≠ ':' := fun h => hpre (h ▸ List.mem_cons_self c cs)
    have hcs : ':' ∉ cs := fun h => hpre (List.mem_cons_of_mem c h)
    simp [strIndex, hc, ih hcs]

theorem drop_append_cons (pre post : List Char) :
    (pre ++ ':' :: post).drop (pre.length + 1) = post := by
  have h : pre ++ ':' :: post = (pre ++ [':']) ++ post := by simp
  have hl : (pre ++ [':']).length = pre.length + 1 := by simp
  rw [h, ← hl, List.drop_left]

/-- C8: `contentAddressableReference(repository, identity)` is a pure
function of its two inputs, equal to the repository, a colon, and the first
40 characters of the portion of the identity strictly after its first
colon; equal arguments give equal results. -/
theorem contentAddressableImgref_pure (repo pre post : List Char) (hpre : ':' ∉ pre) :
    content_addressable_imgref repo (pre ++ ':' :: post) = some (repo ++ ':' :: post.take 40) ∧
    ∀ repo2 id2, repo2 = repo → id2 = pre ++ ':' :: post →
      content_addressable_imgref repo2 id2 = content_addressable_imgref repo (pre ++ ':' :: post) := by
  constructor
  · unfold content_addressable_imgref
    rw [strIndex_append_cons pre post hpre]
    show some (repo ++ ':' :: ((pre ++ ':' :: post).drop (pre.length + 1)).take 40) = _
    rw [drop_append_cons]
  · intro repo2 id2 h1 h2
    rw [h1, h2]

/-- Witness for C8 at a concrete repository and identity. -/
theorem contentAddressableImgref_pure_witness :
    ':' ∉ "sha256".data ∧
    content_addressable_imgref "myrepo/db".data ("sha256".data ++ ':' :: "0123abcd".data) =
      some ("myrepo/db".data ++ ':' :: ("0123abcd".data.take 40)) :=
  ⟨by decide, (contentAddressableImgref_pure "myrepo/db".data "sha256".data "0123abcd".data (by decide)).1⟩

/-- Identity-shape predicate written from the claim's words (C9): an
`<algorithm>:<hex>` identity has a nonempty algorithm name before the first
colon and a nonempty all-hexadecimal remainder after it. The source never
checks this; the predicate exists only to state the claim. -/
def isHexDigitChar (c : Char) : Bool :=
  (decide ('0' ≤ c) && decide (c ≤ '9')) || (decide ('a' ≤ c) && decide (c ≤ 'f')) ||
  (decide ('A' ≤ c) && decide (c ≤ 'F'))

/-- Shape check `<algorithm>:<hex>` from the claim's words (C9). -/
def specIdentityShape (idArg : String) : Bool :=
  match strIndex ':' idArg.data with
  | none => false
  | some i =>
    decide (1 ≤ i) && !(idArg.data.drop (i + 1)).isEmpty &&
      (idArg.data.drop (i + 1)).all isHexDigitChar

/-- Counterexample to C9 as stated: `"sha256:zz!!"` does not match the
`<algorithm>:<hex>` shape, yet forming the content-addressable reference
succeeds (the code never validates the hex part). -/
theorem contentAddressableImgref_accepts_nonhex :
    specIdentityShape "sha256:zz!!" = false ∧
    contentAddressableImgrefS "myrepo/db" "sha256:zz!!" = some "myrepo/db:zz!!" := by
  constructor
  · decide
  · decide

theorem caImgref_eq_none_iff (repo idArg : List Char) :
    content_addressable_imgref repo idArg = none ↔ ':' ∉ idArg := by
  unfold content_addressable_imgref
  cases h : strIndex ':' idArg with
  | none => simp [(strIndex_eq_none_iff ':' idArg).mp h]
  | some i =>
    have : ':' ∈ idArg := by
      by_contra hc
      rw [(strIndex_eq_none_iff ':' idArg).mpr hc] at h
      exact absurd h (by simp)
    simp [this]

/-- C9 (amended): forming a content-addressable reference fails (the
`ValueError` from `str.index`) exactly when the identity contains no colon;
every identity containing a colon succeeds, hex or not. -/
theorem contentAddressableImgref_fails_iff_no_colon (repo idArg : List Char) :
    content_addressable_imgref repo idArg = none ↔ ':' ∉ idArg :=
  caImgref_eq_none_iff repo idArg

/-- C10: `tag_content_addressable` never fails on a failed tag: for every
identity containing a colon it returns the computed content-addressable
reference unconditionally, because the exit status of the underlying
`docker tag` is not checked; the returned value is independent of the
builder environment and store. -/
theorem tagContentAddressable_ignores_tag_failure (env env2 : DockerEnv) (store store2 : Store)
    (repo idArg : String) (h : ':' ∈ idArg.data) :
    (∃ imgref, contentAddressableImgrefS repo idArg = some imgref ∧
      (tag_content_addressable env store repo idArg).1 = .ok imgref) ∧
    (tag_content_addressable env store repo idArg).1 =
      (tag_content_addressable env2 store2 repo idArg).1 := by
  cases hca : contentAddressableImgrefS repo idArg with
  | none =>
    exfalso
    have hnone : content_addressable_imgref repo.data idArg.data = none := by
      by_contra hne
      rcases Option.ne_none_iff_exists.mp hne with ⟨l, hl⟩
      rw [contentAddressableImgrefS, ← hl] at hca
      exact absurd hca (by simp)
    exact absurd ((caImgref_eq_none_iff repo.data idArg.data).mp hnone) (by simp [h])
  | some r =>
    refine ⟨⟨r, rfl, ?_⟩, ?_⟩
    · simp [tag_content_addressable, hca]
    · simp [tag_content_addressable, hca]

/-- Builder environment whose tag primitive always fails. -/
def wEnvTagFail : DockerEnv := ⟨fun _ _ => .ok "sha256:abc", fun _ _ => true⟩

/-- Witness for C10: even with an always-failing tag primitive the computed
reference is returned. -/
theorem tagContentAddressable_ignores_tag_failure_witness :
    ':' ∈ "sha256:ab".data ∧
    (∃ imgref, contentAddressableImgrefS "r" "sha256:ab" = some imgref ∧
      (tag_content_addressable wEnvTagFail [] "r" "sha256:ab").1 = .ok imgref) :=
  ⟨by decide,
   (tagContentAddressable_ignores_tag_failure wEnvTagFail wEnvTagFail [] [] "r" "sha256:ab"
     (by decide)).1⟩

/-- Builder environment whose primitives always succeed. -/
def wEnvOk : DockerEnv := ⟨fun _ _ => .ok "sha256:abc", fun _ _ => false⟩

/-- The manifest of the spec's Scenario C. -/
def scenarioCManifest : Json :=
  Json.obj [("images", Json.obj [("db", Json.obj [("image", Json.str "myrepo/db:latest")])])]

/-- C1: evaluation at the spec's Scenario C. The code passes the full
existing reference `"myrepo/db:latest"` (not its repository portion) to
`content_addressable_imgref`, so the output image is
`"myrepo/db:latest:deadbeef..."` and not the claimed
`"myrepo/db:" ++` the first 40 hex characters; `contentDigest` does receive
the full identity. -/
theorem relocate_scenarioC_eval :
    (relocate_images_to_content_addressable wEnvOk [] scenarioCManifest
        [("db", "sha256:deadbeefdeadbeefdeadbeefdeadbeefdeadbeefdeadbeef")]).1 =
      .ok (Json.obj [("images", Json.obj [("db", Json.obj
        [("image", Json.str "myrepo/db:latest:deadbeefdeadbeefdeadbeefdeadbeefdeadbeef"),
         ("contentDigest",
          Json.str "sha256:deadbeefdeadbeefdeadbeefdeadbeefdeadbeefdeadbeef")])])]) ∧
    "myrepo/db:latest:deadbeefdeadbeefdeadbeefdeadbeefdeadbeef" ≠
      "myrepo/db:" ++ "deadbeefdeadbeefdeadbeefdeadbeefdeadbeef" := by
  exact ⟨rfl, by decide⟩

/-- C4: evaluation of `canonical_json` at a concrete manifest: the keys are
sorted, but `json.dumps(o, sort_keys=True)` keeps CPython's default
separators, emitting a space after every `:` and `,` - the output is not
whitespace-free, contradicting the claim (and the function's own
docstring). -/
theorem canonicalJson_emits_spaces :
    canonical_json (Json.obj [("b", Json.num 2), ("a", Json.num 1)]) = "\x7b\"a\": 1, \"b\": 2\x7d" ∧
    canonical_json (Json.obj [("b", Json.num 2), ("a", Json.num 1)]) ≠ "\x7b\"a\":1,\"b\":2\x7d" := by
  have h : canonical_json (Json.obj [("b", Json.num 2), ("a", Json.num 1)]) =
      "\x7b\"a\": 1, \"b\": 2\x7d" := by
    simp only [canonical_json, jsonDumps, jsonDumpsKVs]
    decide
  exact ⟨h, by rw [h]; decide⟩

/-! ### Digest determinism (C2) -/

theorem digest_build_invocation_perm (files1 files2 : List (String × String))
    (args : Option (List String)) (hp : List.Perm files1 files2)
    (hn : (files1.map Prod.fst).Nodup) :
    digest_build_invocation files1 args = digest_build_invocation files2 args := by
  unfold digest_build_invocation _digest_json
  congr 1
  have hsort : sortPairsByKey (jsonDumpsKVs (digestsKvs files1)) =
      sortPairsByKey (jsonDumpsKVs (digestsKvs files2)) := by
    rw [jsonDumpsKVs_eq_map, jsonDumpsKVs_eq_map]
    unfold digestsKvs
    apply sortPairsByKey_eq_of_perm
    · exact (hp.map _).map _
    · have hkeys : ((files1.map (fun pc => (pc.1, Json.str (_digest_file pc.2)))).map
          (fun kv => (kv.1, jsonDumps kv.2))).map Prod.fst = files1.map Prod.fst := by
        simp only [List.map_map]
        rfl
      rw [hkeys]
      exact hn
  simp only [jsonDumps, jsonDumpsKVs]
  rw [hsort]

/-- C2: `digest(buildContextPath, buildArgs)` is deterministic in its
declared inputs: any two walk enumerations of the same path-to-content
mapping (with duplicate-free relative paths) give the same hex digest,
because the path-to-digest mapping is serialized with sorted keys; the
order of `buildArgs` is significant - there is a permutation of the
argument list that changes the digest. -/
theorem digest_deterministic_and_argsOrder_sensitive (files1 files2 : List (String × String))
    (args : Option (List String)) (hp : List.Perm files1 files2)
    (hn : (files1.map Prod.fst).Nodup) :
    digest_build_invocation files1 args = digest_build_invocation files2 args ∧
    ∃ (ctx : List (String × String)) (args1 args2 : List String),
      List.Perm args1 args2 ∧
      digest_build_invocation ctx (some args1) ≠ digest_build_invocation ctx (some args2) := by
  refine ⟨digest_build_invocation_perm files1 files2 args hp hn,
    [], ["a", "b"], ["b", "a"], List.Perm.swap "b" "a" [], ?_⟩
  simp only [digest_build_invocation, _digest_json, digestsKvs, argsJson, List.map_nil,
    List.map_cons, jsonDumps, jsonDumpsKVs, jsonDumpsList]
  decide

/-- Witness for C2 at the spec's Scenario A context: two enumeration orders
of the same two files give the same digest. -/
theorem digest_deterministic_and_argsOrder_sensitive_witness :
    List.Perm [("a.txt", "x"), ("b.txt", "y")] [("b.txt", "y"), ("a.txt", "x")] ∧
    ([("a.txt", "x"), ("b.txt", "y")].map Prod.fst).Nodup ∧
    digest_build_invocation [("a.txt", "x"), ("b.txt", "y")] (some ["--flag"]) =
      digest_build_invocation [("b.txt", "y"), ("a.txt", "x")] (some ["--flag"]) :=
  ⟨List.Perm.swap ("b.txt", "y") ("a.txt", "x") [], by decide,
   (digest_deterministic_and_argsOrder_sensitive _ _ (some ["--flag"])
     (List.Perm.swap ("b.txt", "y") ("a.txt", "x") []) (by decide)).1⟩

/-! ### Build cache (C3, C6) -/

theorem storeLookup_storeTag_self (store : Store) (idv ref : String) :
    storeLookup (storeTag store idv ref) ref = some idv := by
  simp [storeLookup, storeTag, alookup]

/-- C3: cache correctness of `build_with_client_cache`. Starting from a
store with nothing tagged `"build-context:" ++ digest`, a first call
invokes the external build exactly once and tags the produced identity
with that reference; a second call with identical context and arguments
(whatever the builder environment then does) finds the identity via lookup
and returns the same identity with zero build invocations. -/
theorem buildWithCache_cache_correctness (env env2 : DockerEnv) (store : Store)
    (files : List (String × String)) (iidfile1 iidfile2 : Option String)
    (args : Option (List String)) (iid : String)
    (h1 : storeLookup store (_imgref_for_invocation_digest
            (digest_build_invocation files (some (argsNorm args)))) = none)
    (h2 : env.buildResult files (argsNorm args) = .ok iid)
    (h3 : pyStrip iid = iid)
    (h4 : env.tagFails iid (_imgref_for_invocation_digest
            (digest_build_invocation files (some (argsNorm args)))) = false) :
    (build_with_client_cache env store (.ok files) iidfile1 args).result = .ok iid ∧
    (build_with_client_cache env store (.ok files) iidfile1 args).builds = 1 ∧
    storeLookup (build_with_client_cache env store (.ok files) iidfile1 args).store
      (_imgref_for_invocation_digest (digest_build_invocation files (some (argsNorm args)))) =
        some iid ∧
    (build_with_client_cache env2 (build_with_client_cache env store (.ok files) iidfile1 args).store
        (.ok files) iidfile2 args).result = .ok iid ∧
    (build_with_client_cache env2 (build_with_client_cache env store (.ok files) iidfile1 args).store
        (.ok files) iidfile2 args).builds = 0 := by
  have e1 : build_with_client_cache env store (.ok files) iidfile1 args =
      ⟨.ok iid,
       storeTag store iid
         (_imgref_for_invocation_digest (digest_build_invocation files (some (argsNorm args)))),
       1, iidfile1.isNone, iidfile1.isNone, iidfile1.map (fun _ => iid)⟩ := by
    simp only [build_with_client_cache, h1, h2, h3, h4]
    simp
  have e2 : build_with_client_cache env2
      (storeTag store iid
        (_imgref_for_invocation_digest (digest_build_invocation files (some (argsNorm args)))))
      (.ok files) iidfile2 args =
      ⟨.ok iid,
       storeTag store iid
         (_imgref_for_invocation_digest (digest_build_invocation files (some (argsNorm args)))),
       0, false, false, iidfile2.map (fun _ => iid)⟩ := by
    simp only [build_with_client_cache, storeLookup_storeTag_self]
  rw [e1, e2]
  exact ⟨rfl, rfl, storeLookup_storeTag_self _ _ _, rfl, rfl⟩

/-- Concrete context for the cache witnesses. -/
def wFiles : List (String × String) := [("Dockerfile", "FROM scratch")]

/-- Witness for C3: a concrete fresh store, context and always-succeeding
builder; the first call builds once, the second returns the cached
identity without building. -/
theorem buildWithCache_cache_correctness_witness :
    (build_with_client_cache wEnvOk [] (.ok wFiles) none none).result = .ok "sha256:abc" ∧
    (build_with_client_cache wEnvOk
        (build_with_client_cache wEnvOk [] (.ok wFiles) none none).store
        (.ok wFiles) none none).builds = 0 :=
  ⟨(buildWithCache_cache_correctness wEnvOk wEnvOk [] wFiles none none none "sha256:abc"
      rfl rfl rfl rfl).1,
   (buildWithCache_cache_correctness wEnvOk wEnvOk [] wFiles none none none "sha256:abc"
      rfl rfl rfl rfl).2.2.2.2⟩

theorem bwcc_builds_on_miss (env : DockerEnv) (store : Store)
    (files : List (String × String)) (iidfile : Option String) (args : Option (List String))
    (h : storeLookup store (_imgref_for_invocation_digest
           (digest_build_invocation files (some (argsNorm args)))) = none) :
    (build_with_client_cache env store (.ok files) iidfile args).builds = 1 := by
  simp only [build_with_client_cache, h]
  cases he : env.buildResult files (argsNorm args) with
  | error u => simp
  | ok r =>
    by_cases ht : env.tagFails (pyStrip r)
        (_imgref_for_invocation_digest (digest_build_invocation files (some (argsNorm args)))) <;>
      simp [ht]

theorem bwcc_tmpdir_balance (env : DockerEnv) (store : Store)
    (ctx : Except PyErr (List (String × String))) (iidfile : Option String)
    (args : Option (List String)) :
    (build_with_client_cache env store ctx iidfile args).tmpdirRemoved =
      (build_with_client_cache env store ctx iidfile args).tmpdirCreated := by
  unfold build_with_client_cache
  repeat' split
  all_goals rfl

/-- C6: a failing external build raises `BuildError` and records no tag:
the store is unchanged (no negative caching), so a subsequent call with the
same context and arguments misses the cache and invokes the real build
again (whatever the builder environment then is); and any scratch directory
created internally for the identity file is removed on success and failure
paths alike. -/
theorem buildWithCache_build_failure (env : DockerEnv) (store : Store)
    (files : List (String × String)) (iidfile : Option String) (args : Option (List String))
    (h1 : storeLookup store (_imgref_for_invocation_digest
            (digest_build_invocation files (some (argsNorm args)))) = none)
    (h2 : env.buildResult files (argsNorm args) = .error ()) :
    (build_with_client_cache env store (.ok files) iidfile args).result = .error .buildError ∧
    (build_with_client_cache env store (.ok files) iidfile args).store = store ∧
    (build_with_client_cache env store (.ok files) iidfile args).builds = 1 ∧
    (∀ env2 iidfile2,
      (build_with_client_cache env2
        (build_with_client_cache env store (.ok files) iidfile args).store
        (.ok files) iidfile2 args).builds = 1) ∧
    (∀ envA storeA ctxA iidfileA argsA,
      (build_with_client_cache envA storeA ctxA iidfileA argsA).tmpdirRemoved =
        (build_with_client_cache envA storeA ctxA iidfileA argsA).tmpdirCreated) := by
  have e1 : build_with_client_cache env store (.ok files) iidfile args =
      ⟨.error .buildError, store, 1, iidfile.isNone, iidfile.isNone, none⟩ := by
    simp only [build_with_client_cache, h1, h2]
  rw [e1]
  exact ⟨rfl, rfl, rfl,
    fun env2 iidfile2 => bwcc_builds_on_miss env2 store files iidfile2 args h1,
    fun envA storeA ctxA iidfileA argsA => bwcc_tmpdir_balance envA storeA ctxA iidfileA argsA⟩

/-- Builder environment whose build primitive always fails. -/
def wEnvBuildFail : DockerEnv := ⟨fun _ _ => .error (), fun _ _ => false⟩

/-- Witness for C6: a failing build on a fresh store raises BuildError,
leaves the store empty, and a retry still performs a build. -/
theorem buildWithCache_build_failure_witness :
    (build_with_client_cache wEnvBuildFail [] (.ok wFiles) none none).result =
      .error .buildError ∧
    (build_with_client_cache wEnvBuildFail [] (.ok wFiles) none none).store = ([] : Store) ∧
    (build_with_client_cache wEnvBuildFail
        (build_with_client_cache wEnvBuildFail [] (.ok wFiles) none none).store
        (.ok wFiles) none none).builds = 1 :=
  ⟨(buildWithCache_build_failure wEnvBuildFail [] wFiles none none rfl rfl).1,
   (buildWithCache_build_failure wEnvBuildFail [] wFiles none none rfl rfl).2.1,
   (buildWithCache_build_failure wEnvBuildFail [] wFiles none none rfl rfl).2.2.2.1
     wEnvBuildFail none⟩

/-! ### All-or-nothing manifest write (C5) -/

/-- C5: `build_cnab_app` is all-or-nothing with respect to the output
manifest: whenever processing raises (an `IOError` while digesting, a
`BuildError` from the external build, the unsupported-builder error, or any
other exception), nothing is written to the output file; the canonical
serialization of the final manifest is written exactly when every
invocation image was processed successfully and an output file was
requested. -/
theorem buildCnabApp_write_all_or_nothing (env : DockerEnv) (store : Store)
    (cnabDir : Except PyErr (List (String × String))) (manifest : Json) (outputFile : Bool) :
    ((∃ e, (build_cnab_app env store cnabDir manifest outputFile).result = .error e) →
      (build_cnab_app env store cnabDir manifest outputFile).written = none) ∧
    (∀ m2, (build_cnab_app env store cnabDir manifest outputFile).result = .ok m2 →
      (build_cnab_app env store cnabDir manifest outputFile).written =
        if outputFile then some (canonical_json m2) else none) := by
  unfold build_cnab_app
  rcases hc : buildCnabManifestCore env store cnabDir manifest with ⟨res, s⟩
  cases res with
  | error e =>
    constructor
    · intro _; rfl
    · intro m2 hm; simp at hm
  | ok cm =>
    constructor
    · rintro ⟨e, he⟩; simp at he
    · intro m2 hm
      simp only [Except.ok.injEq] at hm
      rw [hm]

/-- Manifest with one docker invocation image, for the C5 witness. -/
def wManifest0 : Json :=
  Json.obj [("name", Json.str "app"), ("invocationImages", Json.obj [("main", Json.obj [])])]

/-- Witness for C5: an unreadable build context (IOError while digesting)
aborts the build of the sole invocation image and nothing is written. -/
theorem buildCnabApp_write_all_or_nothing_witness :
    (build_cnab_app wEnvOk [] (Except.error PyErr.ioError) wManifest0 true).written = none :=
  (buildCnabApp_write_all_or_nothing wEnvOk [] (Except.error PyErr.ioError) wManifest0 true).1
    ⟨PyErr.ioError, rfl⟩

/-! ### Frame property of relocation (C7) -/

theorem alookup_map_setfn {V : Type} (l : List (String × V)) (k k2 : String) (v : V)
    (h : k2 ≠ k) :
    alookup (l.map (fun kv => if kv.1 = k then (k, v) else kv)) k2 = alookup l k2 := by
  induction l with
  | nil => rfl
  | cons p ps ih =>
    by_cases hp : p.1 = k
    · have hk2 : ¬k = k2 := fun hh => h hh.symm
      have hp2 : ¬p.1 = k2 := fun hh => h (hp ▸ hh).symm
      simp only [List.map_cons, if_pos hp, alookup, if_neg hk2, if_neg hp2]
      exact ih
    · by_cases hk2 : p.1 = k2
      · simp only [List.map_cons, if_neg hp, alookup, if_pos hk2]
      · simp only [List.map_cons, if_neg hp, alookup, if_neg hk2]
        exact ih

theorem alookup_append {V : Type} (l1 l2 : List (String × V)) (k : String) :
    alookup (l1 ++ l2) k =
      match alookup l1 k with
      | some v => some v
      | none => alookup l2 k := by
  induction l1 with
  | nil => simp [alookup]
  | cons p ps ih =>
    by_cases hp : p.1 = k
    · simp [alookup, hp]
    · simp [alookup, hp, ih]

theorem alookup_aset_ne {V : Type} (l : List (String × V)) (k k2 : String) (v : V)
    (h : k2 ≠ k) : alookup (aset l k v) k2 = alookup l k2 := by
  unfold aset
  by_cases hs : (alookup l k).isSome
  · rw [if_pos hs]
    exact alookup_map_setfn l k k2 v h
  · rw [if_neg hs, alookup_append]
    cases hl : alookup l k2 with
    | some w => simp
    | none =>
      have hk2 : ¬k = k2 := fun hh => h hh.symm
      simp [alookup, hk2]

/-- Frame relation (C7) between an `images` entry and its relocated image:
the name is unchanged; an entry whose name is absent from the identities
map passes through unchanged; a (dictionary) entry keeps every field other
than `image` and `contentDigest` unchanged. -/
def relocEntryFrame (image_ids : List (String × String)) (p q : String × Json) : Prop :=
  q.1 = p.1 ∧
  (alookup image_ids p.1 = none → q = p) ∧
  (∀ entryKvs, p.2 = Json.obj entryKvs →
    ∃ entryKvs2, q.2 = Json.obj entryKvs2 ∧
      ∀ k, k ≠ "image" → k ≠ "contentDigest" → alookup entryKvs2 k = alookup entryKvs k)

theorem relocateEntryS_frame (env : DockerEnv) (store : Store)
    (entryKvs : List (String × Json)) (idv : String) (q : Json) (s : Store)
    (h : relocateEntryS env store (Json.obj entryKvs) idv = (.ok q, s)) :
    ∃ entryKvs2, q = Json.obj entryKvs2 ∧
      ∀ k, k ≠ "image" → k ≠ "contentDigest" → alookup entryKvs2 k = alookup entryKvs k := by
  simp only [relocateEntryS] at h
  split at h
  · split at h
    · simp at h
    · simp only [Prod.mk.injEq, Except.ok.injEq] at h
      obtain ⟨hq, _⟩ := h
      refine ⟨_, hq.symm, ?_⟩
      intro k hk1 hk2
      rw [alookup_aset_ne _ _ _ _ hk2, alookup_aset_ne _ _ _ _ hk1]
  · simp at h
  · simp at h

theorem relocateImagesLoop_frame (env : DockerEnv) (image_ids : List (String × String)) :
    ∀ (entries : List (String × Json)) (store : Store) (out : List (String × Json)) (s : Store),
      relocateImagesLoop env image_ids store entries = (.ok out, s) →
      List.Forall₂ (relocEntryFrame image_ids) entries out := by
  intro entries
  induction entries with
  | nil =>
    intro store out s h
    simp only [relocateImagesLoop, Prod.mk.injEq, Except.ok.injEq] at h
    rw [← h.1]
    exact List.Forall₂.nil
  | cons p rest ih =>
    obtain ⟨name, entry⟩ := p
    intro store out s h
    simp only [relocateImagesLoop] at h
    split at h
    · simp at h
    · rename_i nextEntry s1 heq
      split at h
      · simp at h
      · rename_i rest2 s2 heq2
        simp only [Prod.mk.injEq, Except.ok.injEq] at h
        rw [← h.1]
        refine List.Forall₂.cons ?_ (ih s1 rest2 s2 heq2)
        split at heq
        · simp only [Prod.mk.injEq, Except.ok.injEq] at heq
          rename_i halk
          refine ⟨rfl, fun _ => by rw [heq.1], ?_⟩
          intro kvs hkvs
          exact ⟨kvs, by rw [← heq.1, hkvs], fun _ _ _ => rfl⟩
        · rename_i idv halk
          split at heq
          · simp only [Prod.mk.injEq, Except.ok.injEq] at heq
            refine ⟨rfl, fun hnone => by rw [halk] at hnone; simp at hnone, ?_⟩
            intro kvs hkvs
            exact ⟨kvs, by rw [← heq.1, hkvs], fun _ _ _ => rfl⟩
          · refine ⟨rfl, fun hnone => by rw [halk] at hnone; simp at hnone, ?_⟩
            intro kvs hkvs
            subst hkvs
            exact relocateEntryS_frame env store kvs idv nextEntry s1 heq

/-- C7: frame property of `relocate_images_to_content_addressable`. On a
successful run over a manifest object whose `images` field is an object,
the output manifest replaces only the `images` value: entry for entry, the
name is kept, entries whose name is absent from the identities map pass
through unchanged, and touched entries keep every field other than `image`
and `contentDigest`; every manifest field outside `images` is unchanged. -/
theorem relocateImages_frame (env : DockerEnv) (store : Store)
    (kvs images : List (String × Json)) (image_ids : List (String × String))
    (m2 : Json) (s2 : Store)
    (hImages : alookup kvs "images" = some (Json.obj images))
    (hRun : relocate_images_to_content_addressable env store (Json.obj kvs) image_ids =
      (.ok m2, s2)) :
    ∃ nextImages : List (String × Json),
      m2 = Json.obj (aset kvs "images" (Json.obj nextImages)) ∧
      List.Forall₂ (relocEntryFrame image_ids) images nextImages ∧
      ∀ k, k ≠ "images" → jGet m2 k = alookup kvs k := by
  simp only [relocate_images_to_content_addressable] at hRun
  rw [hImages] at hRun
  simp only [] at hRun
  split at hRun
  · simp at hRun
  · rename_i next s3 hloop
    simp only [Prod.mk.injEq, Except.ok.injEq] at hRun
    obtain ⟨hm, _⟩ := hRun
    refine ⟨next, hm.symm, relocateImagesLoop_frame env image_ids images store next s3 hloop, ?_⟩
    intro k hk
    rw [← hm]
    simp only [jGet]
    exact alookup_aset_ne kvs "images" k (Json.obj next) hk

/-- Input images for the C7 witness: one entry to relocate, one to pass
through. -/
def wImgs : List (String × Json) :=
  [("db", Json.obj [("image", Json.str "r:l")]), ("web", Json.obj [("image", Json.str "w")])]

/-- Manifest fields for the C7 witness. -/
def wKvs : List (String × Json) := [("name", Json.str "a"), ("images", Json.obj wImgs)]

/-- Identity map for the C7 witness. -/
def wIds : List (String × String) := [("db", "sha256:abc")]

/-- The manifest produced by the C7 witness run. -/
def wM2 : Json :=
  Json.obj [("name", Json.str "a"),
    ("images", Json.obj
      [("db", Json.obj [("image", Json.str "r:l:abc"), ("contentDigest", Json.str "sha256:abc")]),
       ("web", Json.obj [("image", Json.str "w")])])]

/-- Witness for C7 at a concrete two-entry manifest. -/
theorem relocateImages_frame_witness :
    alookup wKvs "images" = some (Json.obj wImgs) ∧
    ∃ nextImages : List (String × Json),
      wM2 = Json.obj (aset wKvs "images" (Json.obj nextImages)) ∧
      List.Forall₂ (relocEntryFrame wIds) wImgs nextImages ∧
      ∀ k, k ≠ "images" → jGet wM2 k = alookup wKvs k :=
  ⟨rfl, relocateImages_frame wEnvOk [] wKvs wImgs wIds wM2 [("r:l:abc", "sha256:abc")] rfl rfl⟩
